import Mathlib

/-!
Shallow embedding of the pong simulation core from `src/main.rs`.

Rust `f32` values are modelled as exact rationals (`ℚ`); every arithmetic
operation the embedded systems perform (addition, subtraction, multiplication,
negation, `min`/`max`, comparisons) is exact on the inputs the claims use, so
the rational model agrees with the source on them.  The one place where IEEE-754
special values matter — the auto-pilot's division `(X - bx) / vx`, which the
source performs without guarding against `vx = 0` — is modelled by an explicit
extended value type `FVal` (finite / +infinity / -infinity / NaN) whose
division, multiplication, addition and comparisons follow IEEE-754 semantics.
-/

namespace Pong

/-- `enum PaddleType { Left, Right }` from the source. -/
inductive PaddleType where
  | Left
  | Right
deriving DecidableEq, Repr

/-- `struct Paddle { paddle_type, is_auto }` from the source. -/
structure Paddle where
  paddle_type : PaddleType
  is_auto : Bool
deriving DecidableEq, Repr

/-- `struct Position { y: f32 }` from the source (a paddle's vertical offset). -/
structure Position where
  y : ℚ
deriving DecidableEq, Repr

/-- `struct Ball { x, y, speed_fact }` from the source.  `x`, `y` are the
velocity direction components; the ball's screen position lives in its
`Transform`. -/
structure Ball where
  x : ℚ
  y : ℚ
  speed_fact : ℚ
deriving DecidableEq, Repr

/-- The ball's `Transform::translation` (only the x/y coordinates matter). -/
structure Transform where
  tx : ℚ
  ty : ℚ
deriving DecidableEq, Repr

/-- `struct Score { score: i64, paddle_type }` from the source. -/
structure Score where
  score : ℤ
  paddle_type : PaddleType
deriving DecidableEq, Repr

/-- `struct Counter { count: i64 }` from the source (the rally counter). -/
structure Counter where
  count : ℤ
deriving DecidableEq, Repr

/-- Snapshot of the keyboard state read by `move_paddle`: one flag per key the
system queries with `input.pressed` (`W`, `O`, `Q`, `Up`, `Down`, `P`). -/
structure Keys where
  w : Bool
  o : Bool
  q : Bool
  up : Bool
  down : Bool
  p : Bool
deriving DecidableEq, Repr

/-- The entity store the systems operate on: the single ball (component plus
transform), the two paddles spawned by `spawn_paddle` (one per side, each with
its `Position`), the two scores, and the rally counter resource. -/
structure GameState where
  ball : Ball
  trans : Transform
  leftPaddle : Paddle
  rightPaddle : Paddle
  leftPos : Position
  rightPos : Position
  leftScore : Score
  rightScore : Score
  counter : Counter
deriving DecidableEq, Repr

/-- The state after the startup systems (`setup`, `spawn_ball`, `spawn_paddle`)
ran: ball velocity `(3.0, 3.0)` with speed factor `1.0`, default transform at
the origin, both paddles at offset `0` with `is_auto = true`, both scores `0`,
counter `0`. -/
def initState : GameState :=
  { ball := { x := 3, y := 3, speed_fact := 1 }
    trans := { tx := 0, ty := 0 }
    leftPaddle := { paddle_type := PaddleType.Left, is_auto := true }
    rightPaddle := { paddle_type := PaddleType.Right, is_auto := true }
    leftPos := { y := 0 }
    rightPos := { y := 0 }
    leftScore := { score := 0, paddle_type := PaddleType.Left }
    rightScore := { score := 0, paddle_type := PaddleType.Right }
    counter := { count := 0 } }

/-- `ball_move`: add `ball.x * ball.speed_fact` to the translation's x and
`ball.y * ball.speed_fact` to its y.  Touches nothing else. -/
def ballMove (s : GameState) : GameState :=
  { s with trans := { tx := s.trans.tx + s.ball.x * s.ball.speed_fact
                      ty := s.trans.ty + s.ball.y * s.ball.speed_fact } }

/-- The vertical-bound branch of `ball_collision`: if the translation's y is at
or beyond `±(height/2 - 20)` the velocity's y component is negated (the
`height` argument here is already the reduced half-height, as in the source's
local `height` variable). -/
def bounceY (height : ℚ) (s : GameState) : GameState :=
  if s.trans.ty ≥ height ∨ s.trans.ty ≤ -height then
    { s with ball := { s.ball with y := -s.ball.y } }
  else s

/-- The catch branch of `ball_collision`: negate the velocity's x component and
increment the rally counter (then the source `return`s, so nothing else runs). -/
def catchBall (s : GameState) : GameState :=
  { s with ball := { s.ball with x := -s.ball.x }
           counter := { count := s.counter.count + 1 } }

/-- The right-side miss branch of `ball_collision`: every `Score` whose side is
`Left` is incremented (there is exactly one), the translation is reset to the
origin and the rally counter to `0`. -/
def scoreLeft (s : GameState) : GameState :=
  { s with leftScore := { s.leftScore with score := s.leftScore.score + 1 }
           trans := { tx := 0, ty := 0 }
           counter := { count := 0 } }

/-- The left-side miss branch of `ball_collision`, mirror of `scoreLeft`. -/
def scoreRight (s : GameState) : GameState :=
  { s with rightScore := { s.rightScore with score := s.rightScore.score + 1 }
           trans := { tx := 0, ty := 0 }
           counter := { count := 0 } }

/-- `ball_collision`, for window dimensions `wh × ww`: the local bounds are
`height = wh/2 - 20` and `width = ww/2 - 20`; the vertical bounce runs first
(it only negates the velocity's y), then the right/left horizontal branches.
On `tx ≥ width` the right paddle's catch window `pos.y - 50 < ty < pos.y + 50`
(strict, exactly as the source's `>` / `<`) decides between `catchBall`
(which `return`s) and `scoreLeft`; symmetrically for `tx ≤ -width`. -/
def ballCollision (wh ww : ℚ) (s : GameState) : GameState :=
  let s1 := bounceY (wh / 2 - 20) s
  if s1.trans.tx ≥ ww / 2 - 20 then
    if s1.trans.ty > s1.rightPos.y - 50 ∧ s1.trans.ty < s1.rightPos.y + 50 then
      catchBall s1
    else
      scoreLeft s1
  else if s1.trans.tx ≤ -(ww / 2 - 20) then
    if s1.trans.ty > s1.leftPos.y - 50 ∧ s1.trans.ty < s1.leftPos.y + 50 then
      catchBall s1
    else
      scoreRight s1
  else s1

/-- `ball_speed_up`: recompute the ball's speed factor as
`1.0 + min(total_score, 20)/5.0 + rally/3.0`, where `total_score` is the sum of
both scores (`score.iter().map(|x| x.score).sum()`). -/
def ballSpeedUp (s : GameState) : GameState :=
  let cur_score := s.leftScore.score + s.rightScore.score
  { s with ball := { s.ball with
      speed_fact := 1 + ((min cur_score 20 : ℤ) : ℚ) / 5 + (s.counter.count : ℚ) / 3 } }

/-- `move_paddle`, for window height `wh` and the current key snapshot.  For
each paddle: when not auto-piloted the held movement keys add/subtract
`speed = wh/100`; the toggle key (`Q` for the left paddle, `P` for the right)
flips `is_auto` whenever it is *held* (`input.pressed`); finally the offset is
clamped by `pos.y.min(wh/2 - 50).max(-wh/2 + 50)`. -/
def movePaddle (wh : ℚ) (input : Keys) (s : GameState) : GameState :=
  let speed := wh / 100
  let ly0 :=
    if s.leftPaddle.is_auto then s.leftPos.y
    else
      let y1 := if input.w then s.leftPos.y + speed else s.leftPos.y
      if input.o then y1 - speed else y1
  let lp :=
    if input.q then { s.leftPaddle with is_auto := !s.leftPaddle.is_auto }
    else s.leftPaddle
  let ly := max (min ly0 (wh / 2 - 50)) (-(wh / 2) + 50)
  let ry0 :=
    if s.rightPaddle.is_auto then s.rightPos.y
    else
      let y1 := if input.up then s.rightPos.y + speed else s.rightPos.y
      if input.down then y1 - speed else y1
  let rp :=
    if input.p then { s.rightPaddle with is_auto := !s.rightPaddle.is_auto }
    else s.rightPaddle
  let ry := max (min ry0 (wh / 2 - 50)) (-(wh / 2) + 50)
  { s with leftPaddle := lp, leftPos := { y := ly }
           rightPaddle := rp, rightPos := { y := ry } }

/-- IEEE-754-style extended value for the auto-pilot's unguarded division:
a finite rational, `+∞`, `-∞`, or NaN. -/
inductive FVal where
  | fin : ℚ → FVal
  | inf
  | negInf
  | nan
deriving DecidableEq, Repr

/-- IEEE division of two finite values: `a / 0` is `±∞` by the sign of `a`
(`0/0` is NaN, and the source's literal `0.0` divisor is positive zero),
otherwise the exact quotient. -/
def FVal.divq (a b : ℚ) : FVal :=
  if b = 0 then
    if a > 0 then FVal.inf else if a < 0 then FVal.negInf else FVal.nan
  else FVal.fin (a / b)

/-- IEEE multiplication of a finite value by an extended value:
`0 * ±∞` is NaN, otherwise the sign rules apply; NaN propagates. -/
def FVal.mulq (a : ℚ) : FVal → FVal
  | FVal.fin q => FVal.fin (a * q)
  | FVal.inf => if a > 0 then FVal.inf else if a < 0 then FVal.negInf else FVal.nan
  | FVal.negInf => if a > 0 then FVal.negInf else if a < 0 then FVal.inf else FVal.nan
  | FVal.nan => FVal.nan

/-- IEEE addition of a finite value to an extended value. -/
def FVal.addq (a : ℚ) : FVal → FVal
  | FVal.fin q => FVal.fin (a + q)
  | FVal.inf => FVal.inf
  | FVal.negInf => FVal.negInf
  | FVal.nan => FVal.nan

/-- IEEE comparison `t > a` for extended `t` and finite `a`; NaN compares
false. -/
def FVal.gtb : FVal → ℚ → Bool
  | FVal.fin q, a => decide (q > a)
  | FVal.inf, _ => true
  | FVal.negInf, _ => false
  | FVal.nan, _ => false

/-- IEEE comparison `t < a` for extended `t` and finite `a`; NaN compares
false. -/
def FVal.ltb : FVal → ℚ → Bool
  | FVal.fin q, a => decide (q < a)
  | FVal.inf, _ => false
  | FVal.negInf, _ => true
  | FVal.nan, _ => false

/-- The paddle's horizontal plane used by `auto_move_paddle`:
`-width/2` for the left paddle, `width/2` for the right. -/
def planeX : PaddleType → ℚ → ℚ
  | PaddleType.Left, width => -(width / 2)
  | PaddleType.Right, width => width / 2

/-- The auto-pilot's predicted crossing height
`target_y = trans.y + ball.y * ((X - trans.x) / ball.x)`, computed with the
IEEE extended semantics since the source divides by `ball.x` unguarded. -/
def autoTarget (ww : ℚ) (ball : Ball) (trans : Transform) (pt : PaddleType) : FVal :=
  FVal.addq trans.ty (FVal.mulq ball.y (FVal.divq (planeX pt ww - trans.tx) ball.x))

/-- The per-paddle body of `auto_move_paddle`: when `is_auto`, move the offset
one `speed = wh/100` step toward `target_y` under strict comparisons; otherwise
leave it alone. -/
def autoMovePaddleOne (wh ww : ℚ) (ball : Ball) (trans : Transform)
    (paddle : Paddle) (pos : Position) : Position :=
  let speed := wh / 100
  if paddle.is_auto then
    let target := autoTarget ww ball trans paddle.paddle_type
    if FVal.gtb target pos.y then { y := pos.y + speed }
    else if FVal.ltb target pos.y then { y := pos.y - speed }
    else pos
  else pos

/-- `auto_move_paddle`: apply the per-paddle body to both paddles using the
single ball. -/
def autoMovePaddle (wh ww : ℚ) (s : GameState) : GameState :=
  { s with
      leftPos := autoMovePaddleOne wh ww s.ball s.trans s.leftPaddle s.leftPos
      rightPos := autoMovePaddleOne wh ww s.ball s.trans s.rightPaddle s.rightPos }

/-- Concrete frame from the spec's catch scenario: window `800 × 600`, ball
past the right boundary at `(381, 10)`, right paddle centred at `0`. -/
def catchState : GameState := { initState with trans := { tx := 381, ty := 10 } }

/-- Concrete frame from the spec's miss scenario family: ball at `(381, 210)`,
outside the right paddle's window and inside the vertical bounds. -/
def missState : GameState := { initState with trans := { tx := 381, ty := 210 } }

/-- Concrete corner frame: ball at `(380, 280)` in a `800 × 600` window is at
the right boundary and at the top boundary simultaneously. -/
def cornerState : GameState := { initState with trans := { tx := 380, ty := 280 } }

/-- One application of any of the per-frame systems, with arbitrary window
dimensions and key snapshot (the systems that render text or position sprites
do not touch this state). -/
inductive SysStep : GameState → GameState → Prop
  | move (s : GameState) : SysStep s (ballMove s)
  | collide (wh ww : ℚ) (s : GameState) : SysStep s (ballCollision wh ww s)
  | speedUp (s : GameState) : SysStep s (ballSpeedUp s)
  | paddles (wh : ℚ) (k : Keys) (s : GameState) : SysStep s (movePaddle wh k s)
  | autoPaddles (wh ww : ℚ) (s : GameState) : SysStep s (autoMovePaddle wh ww s)

/-- States reachable from the startup state by any interleaving of the
per-frame systems (a superset of the actual frame schedule, so an invariant
proved over `Reachable` holds in every state the game can be in). -/
inductive Reachable : GameState → Prop
  | init : Reachable initState
  | step {s s' : GameState} : Reachable s → SysStep s s' → Reachable s'

lemma bounceY_trans (h : ℚ) (s : GameState) : (bounceY h s).trans = s.trans := by
  unfold bounceY; split <;> rfl

lemma bounceY_leftPos (h : ℚ) (s : GameState) : (bounceY h s).leftPos = s.leftPos := by
  unfold bounceY; split <;> rfl

lemma bounceY_rightPos (h : ℚ) (s : GameState) : (bounceY h s).rightPos = s.rightPos := by
  unfold bounceY; split <;> rfl

lemma bounceY_counter (h : ℚ) (s : GameState) : (bounceY h s).counter = s.counter := by
  unfold bounceY; split <;> rfl

lemma bounceY_leftScore (h : ℚ) (s : GameState) : (bounceY h s).leftScore = s.leftScore := by
  unfold bounceY; split <;> rfl

lemma bounceY_rightScore (h : ℚ) (s : GameState) : (bounceY h s).rightScore = s.rightScore := by
  unfold bounceY; split <;> rfl

lemma bounceY_ball_x (h : ℚ) (s : GameState) : (bounceY h s).ball.x = s.ball.x := by
  unfold bounceY; split <;> rfl

lemma bounceY_speed (h : ℚ) (s : GameState) :
    (bounceY h s).ball.speed_fact = s.ball.speed_fact := by
  unfold bounceY; split <;> rfl

lemma bounceY_ball_y (h : ℚ) (s : GameState) :
    (bounceY h s).ball.y =
      if s.trans.ty ≥ h ∨ s.trans.ty ≤ -h then -s.ball.y else s.ball.y := by
  unfold bounceY; split <;> simp_all

lemma catchBall_ball_x (s : GameState) : (catchBall s).ball.x = -s.ball.x := rfl

lemma catchBall_ball_y (s : GameState) : (catchBall s).ball.y = s.ball.y := rfl

lemma catchBall_speed (s : GameState) :
    (catchBall s).ball.speed_fact = s.ball.speed_fact := rfl

lemma catchBall_count (s : GameState) :
    (catchBall s).counter.count = s.counter.count + 1 := rfl

lemma catchBall_leftScore (s : GameState) : (catchBall s).leftScore = s.leftScore := rfl

lemma catchBall_rightScore (s : GameState) : (catchBall s).rightScore = s.rightScore := rfl

lemma catchBall_trans (s : GameState) : (catchBall s).trans = s.trans := rfl

lemma scoreLeft_ball (s : GameState) : (scoreLeft s).ball = s.ball := rfl

lemma scoreLeft_leftScore (s : GameState) :
    (scoreLeft s).leftScore.score = s.leftScore.score + 1 := rfl

lemma scoreLeft_rightScore (s : GameState) : (scoreLeft s).rightScore = s.rightScore := rfl

lemma scoreLeft_trans (s : GameState) : (scoreLeft s).trans = { tx := 0, ty := 0 } := rfl

lemma scoreLeft_count (s : GameState) : (scoreLeft s).counter.count = 0 := rfl

lemma scoreRight_ball (s : GameState) : (scoreRight s).ball = s.ball := rfl

lemma scoreRight_rightScore (s : GameState) :
    (scoreRight s).rightScore.score = s.rightScore.score + 1 := rfl

lemma scoreRight_leftScore (s : GameState) : (scoreRight s).leftScore = s.leftScore := rfl

lemma scoreRight_trans (s : GameState) : (scoreRight s).trans = { tx := 0, ty := 0 } := rfl

lemma scoreRight_count (s : GameState) : (scoreRight s).counter.count = 0 := rfl

/-- `ballCollision` written as a decision tree whose conditions are stated over
the pre-frame state (the vertical bounce does not move the translation or the
paddles, so the horizontal conditions read the same values before and after
it). -/
lemma ballCollision_eq (wh ww : ℚ) (s : GameState) :
    ballCollision wh ww s =
      if s.trans.tx ≥ ww / 2 - 20 then
        if s.trans.ty > s.rightPos.y - 50 ∧ s.trans.ty < s.rightPos.y + 50 then
          catchBall (bounceY (wh / 2 - 20) s)
        else scoreLeft (bounceY (wh / 2 - 20) s)
      else if s.trans.tx ≤ -(ww / 2 - 20) then
        if s.trans.ty > s.leftPos.y - 50 ∧ s.trans.ty < s.leftPos.y + 50 then
          catchBall (bounceY (wh / 2 - 20) s)
        else scoreRight (bounceY (wh / 2 - 20) s)
      else bounceY (wh / 2 - 20) s := by
  unfold ballCollision
  simp only [bounceY_trans, bounceY_leftPos, bounceY_rightPos]

/-- C7: the Motion Stage adds exactly `(vx * speed_factor, vy * speed_factor)`
to the ball's position and changes nothing else; from `(0,0)` with velocity
`(3,3)` and speed factor `1.0` one tick yields `(3,3)`. -/
theorem ball_move_advances (s : GameState) :
    (ballMove s).trans.tx = s.trans.tx + s.ball.x * s.ball.speed_fact ∧
    (ballMove s).trans.ty = s.trans.ty + s.ball.y * s.ball.speed_fact ∧
    (ballMove s).ball = s.ball ∧
    (ballMove s).leftPaddle = s.leftPaddle ∧
    (ballMove s).rightPaddle = s.rightPaddle ∧
    (ballMove s).leftPos = s.leftPos ∧
    (ballMove s).rightPos = s.rightPos ∧
    (ballMove s).leftScore = s.leftScore ∧
    (ballMove s).rightScore = s.rightScore ∧
    (ballMove s).counter = s.counter ∧
    (ballMove initState).trans = { tx := 3, ty := 3 } :=
  ⟨rfl, rfl, rfl, rfl, rfl, rfl, rfl, rfl, rfl, rfl, by norm_num [ballMove, initState]⟩

/-- C3: the Difficulty Stage recomputes the speed factor as
`1.0 + min(total_score, 20)/5.0 + rally/3.0` from the current state; with total
score `25` and rally `6` the result is exactly `7.0`. -/
theorem speed_factor_formula (s : GameState) :
    (ballSpeedUp s).ball.speed_fact =
      1 + ((min (s.leftScore.score + s.rightScore.score) 20 : ℤ) : ℚ) / 5
        + (s.counter.count : ℚ) / 3 ∧
    (ballSpeedUp { initState with
        leftScore := { score := 25, paddle_type := PaddleType.Left }
        counter := { count := 6 } }).ball.speed_fact = 7 :=
  ⟨rfl, by norm_num [ballSpeedUp, initState, min_def]⟩

/-- C5 amended: the auto-pilot toggle is level-triggered, not edge-triggered —
each paddle's flag is negated on every frame in which its toggle key is held
(`Q` for the left paddle, `P` for the right) and kept otherwise, so holding a
toggle key flips the flag once per frame. -/
theorem toggle_level_triggered (wh : ℚ) (k : Keys) (s : GameState) :
    (movePaddle wh k s).leftPaddle.is_auto =
      (if k.q then !s.leftPaddle.is_auto else s.leftPaddle.is_auto) ∧
    (movePaddle wh k s).rightPaddle.is_auto =
      (if k.p then !s.rightPaddle.is_auto else s.rightPaddle.is_auto) := by
  refine ⟨?_, ?_⟩
  · cases hq : k.q <;> simp [movePaddle, hq]
  · cases hp : k.p <;> simp [movePaddle, hp]

/-- C5 counterexample: holding the left toggle key for two consecutive frames
flips the flag twice — the second held frame flips it again, back to its
original value, contradicting an edge-triggered single flip. -/
theorem toggle_held_flips_each_frame :
    (movePaddle 600 { w := false, o := false, q := true, up := false, down := false, p := false }
        (movePaddle 600
          { w := false, o := false, q := true, up := false, down := false, p := false }
          initState)).leftPaddle.is_auto = initState.leftPaddle.is_auto ∧
    (movePaddle 600 { w := false, o := false, q := true, up := false, down := false, p := false }
        initState).leftPaddle.is_auto ≠ initState.leftPaddle.is_auto := by
  refine ⟨?_, ?_⟩ <;> simp [movePaddle, initState]

/-- C6: after `move_paddle` runs, both paddles' vertical offsets lie within
`[-H/2 + 50, H/2 - 50]`, for any pre-clamp offsets and any auto-pilot flags
(the clamp is applied to every paddle unconditionally). -/
theorem paddle_offset_clamped (wh : ℚ) (k : Keys) (s : GameState) (hh : 100 ≤ wh) :
    (-(wh / 2) + 50 ≤ (movePaddle wh k s).leftPos.y ∧
      (movePaddle wh k s).leftPos.y ≤ wh / 2 - 50) ∧
    (-(wh / 2) + 50 ≤ (movePaddle wh k s).rightPos.y ∧
      (movePaddle wh k s).rightPos.y ≤ wh / 2 - 50) := by
  have hlohi : -(wh / 2) + 50 ≤ wh / 2 - 50 := by linarith
  unfold movePaddle
  dsimp only
  exact ⟨⟨le_max_right _ _, max_le (min_le_right _ _) hlohi⟩,
    ⟨le_max_right _ _, max_le (min_le_right _ _) hlohi⟩⟩

/-- Witness for C6 at a concrete frame: window height `600`, no keys held,
startup state. -/
theorem paddle_offset_clamped_witness :
    (-(600 / 2 : ℚ) + 50 ≤
        (movePaddle 600 { w := false, o := false, q := false, up := false, down := false, p := false }
          initState).leftPos.y ∧
      (movePaddle 600 { w := false, o := false, q := false, up := false, down := false, p := false }
          initState).leftPos.y ≤ 600 / 2 - 50) ∧
    (-(600 / 2 : ℚ) + 50 ≤
        (movePaddle 600 { w := false, o := false, q := false, up := false, down := false, p := false }
          initState).rightPos.y ∧
      (movePaddle 600 { w := false, o := false, q := false, up := false, down := false, p := false }
          initState).rightPos.y ≤ 600 / 2 - 50) :=
  paddle_offset_clamped 600
    { w := false, o := false, q := false, up := false, down := false, p := false }
    initState (by norm_num)

/-- C1: on a frame with the ball at or beyond a horizontal boundary
(`tx ≥ W` right, `tx ≤ -W` left, `W = ww/2 - 20`), a catch fires exactly when
the same-side paddle's window `pos.y - 50 < ty < pos.y + 50` holds strictly
(boundary-equal values miss); on a catch `vx` is negated, the rally counter is
incremented by exactly `1`, and the short-circuit leaves both scores and the
ball's position untouched; on a miss no catch effect happens (`vx` is kept and
the counter is reset rather than incremented). -/
theorem collision_catch_iff_window (wh ww : ℚ) (s : GameState)
    (hW : 0 < ww / 2 - 20) :
    (s.trans.tx ≥ ww / 2 - 20 →
      ((s.trans.ty > s.rightPos.y - 50 ∧ s.trans.ty < s.rightPos.y + 50) →
        (ballCollision wh ww s).ball.x = -s.ball.x ∧
        (ballCollision wh ww s).counter.count = s.counter.count + 1 ∧
        (ballCollision wh ww s).leftScore = s.leftScore ∧
        (ballCollision wh ww s).rightScore = s.rightScore ∧
        (ballCollision wh ww s).trans = s.trans) ∧
      (¬(s.trans.ty > s.rightPos.y - 50 ∧ s.trans.ty < s.rightPos.y + 50) →
        (ballCollision wh ww s).ball.x = s.ball.x ∧
        (ballCollision wh ww s).counter.count = 0)) ∧
    (s.trans.tx ≤ -(ww / 2 - 20) →
      ((s.trans.ty > s.leftPos.y - 50 ∧ s.trans.ty < s.leftPos.y + 50) →
        (ballCollision wh ww s).ball.x = -s.ball.x ∧
        (ballCollision wh ww s).counter.count = s.counter.count + 1 ∧
        (ballCollision wh ww s).leftScore = s.leftScore ∧
        (ballCollision wh ww s).rightScore = s.rightScore ∧
        (ballCollision wh ww s).trans = s.trans) ∧
      (¬(s.trans.ty > s.leftPos.y - 50 ∧ s.trans.ty < s.leftPos.y + 50) →
        (ballCollision wh ww s).ball.x = s.ball.x ∧
        (ballCollision wh ww s).counter.count = 0)) := by
  rw [ballCollision_eq]
  constructor
  · intro hx
    rw [if_pos hx]
    constructor
    · intro hwin
      rw [if_pos hwin]
      exact ⟨by rw [catchBall_ball_x, bounceY_ball_x],
        by rw [catchBall_count, bounceY_counter],
        by rw [catchBall_leftScore, bounceY_leftScore],
        by rw [catchBall_rightScore, bounceY_rightScore],
        by rw [catchBall_trans, bounceY_trans]⟩
    · intro hwin
      rw [if_neg hwin]
      exact ⟨by rw [scoreLeft_ball, bounceY_ball_x], scoreLeft_count _⟩
  · intro hx
    have hx' : ¬(s.trans.tx ≥ ww / 2 - 20) := by
      intro hcon
      have h1 : ww / 2 - 20 ≤ s.trans.tx := hcon
      linarith
    rw [if_neg hx', if_pos hx]
    constructor
    · intro hwin
      rw [if_pos hwin]
      exact ⟨by rw [catchBall_ball_x, bounceY_ball_x],
        by rw [catchBall_count, bounceY_counter],
        by rw [catchBall_leftScore, bounceY_leftScore],
        by rw [catchBall_rightScore, bounceY_rightScore],
        by rw [catchBall_trans, bounceY_trans]⟩
    · intro hwin
      rw [if_neg hwin]
      exact ⟨by rw [scoreRight_ball, bounceY_ball_x], scoreRight_count _⟩

/-- Witness for C1 at the spec's catch scenario: window `800 × 600`, ball at
`(381, 10)`, right paddle at `0` — the catch fires with all its effects. -/
theorem collision_catch_iff_window_witness :
    (ballCollision 600 800 catchState).ball.x = -catchState.ball.x ∧
    (ballCollision 600 800 catchState).counter.count = catchState.counter.count + 1 ∧
    (ballCollision 600 800 catchState).leftScore = catchState.leftScore ∧
    (ballCollision 600 800 catchState).rightScore = catchState.rightScore ∧
    (ballCollision 600 800 catchState).trans = catchState.trans :=
  ((collision_catch_iff_window 600 800 catchState (by norm_num)).1
    (by norm_num [catchState, initState])).1
    (by norm_num [catchState, initState])

/-- C2 amended: on a missed horizontal boundary crossing the opposite side's
score is incremented by exactly `1`, the missing side's score is unchanged, the
ball's position is reset to exactly `(0,0)` and the rally counter to `0`;
`vx` and the speed factor are carried over unchanged, and `vy` is carried over
unchanged except that it has already been negated when the same frame's
vertical wall bounce fired (the bounce runs before the horizontal logic). -/
theorem score_event_effects (wh ww : ℚ) (s : GameState) (hW : 0 < ww / 2 - 20) :
    (s.trans.tx ≥ ww / 2 - 20 →
      ¬(s.trans.ty > s.rightPos.y - 50 ∧ s.trans.ty < s.rightPos.y + 50) →
        (ballCollision wh ww s).leftScore.score = s.leftScore.score + 1 ∧
        (ballCollision wh ww s).rightScore.score = s.rightScore.score ∧
        (ballCollision wh ww s).trans.tx = 0 ∧
        (ballCollision wh ww s).trans.ty = 0 ∧
        (ballCollision wh ww s).counter.count = 0 ∧
        (ballCollision wh ww s).ball.x = s.ball.x ∧
        (ballCollision wh ww s).ball.y =
          (if s.trans.ty ≥ wh / 2 - 20 ∨ s.trans.ty ≤ -(wh / 2 - 20) then -s.ball.y
            else s.ball.y) ∧
        (ballCollision wh ww s).ball.speed_fact = s.ball.speed_fact) ∧
    (s.trans.tx ≤ -(ww / 2 - 20) →
      ¬(s.trans.ty > s.leftPos.y - 50 ∧ s.trans.ty < s.leftPos.y + 50) →
        (ballCollision wh ww s).rightScore.score = s.rightScore.score + 1 ∧
        (ballCollision wh ww s).leftScore.score = s.leftScore.score ∧
        (ballCollision wh ww s).trans.tx = 0 ∧
        (ballCollision wh ww s).trans.ty = 0 ∧
        (ballCollision wh ww s).counter.count = 0 ∧
        (ballCollision wh ww s).ball.x = s.ball.x ∧
        (ballCollision wh ww s).ball.y =
          (if s.trans.ty ≥ wh / 2 - 20 ∨ s.trans.ty ≤ -(wh / 2 - 20) then -s.ball.y
            else s.ball.y) ∧
        (ballCollision wh ww s).ball.speed_fact = s.ball.speed_fact) := by
  rw [ballCollision_eq]
  constructor
  · intro hx hwin
    rw [if_pos hx, if_neg hwin]
    exact ⟨by rw [scoreLeft_leftScore, bounceY_leftScore],
      by rw [scoreLeft_rightScore, bounceY_rightScore],
      by rw [scoreLeft_trans],
      by rw [scoreLeft_trans],
      scoreLeft_count _,
      by rw [scoreLeft_ball, bounceY_ball_x],
      by rw [scoreLeft_ball, bounceY_ball_y],
      by rw [scoreLeft_ball, bounceY_speed]⟩
  · intro hx hwin
    have hx' : ¬(s.trans.tx ≥ ww / 2 - 20) := by
      intro hcon
      have h1 : ww / 2 - 20 ≤ s.trans.tx := hcon
      linarith
    rw [if_neg hx', if_pos hx, if_neg hwin]
    exact ⟨by rw [scoreRight_rightScore, bounceY_rightScore],
      by rw [scoreRight_leftScore, bounceY_leftScore],
      by rw [scoreRight_trans],
      by rw [scoreRight_trans],
      scoreRight_count _,
      by rw [scoreRight_ball, bounceY_ball_x],
      by rw [scoreRight_ball, bounceY_ball_y],
      by rw [scoreRight_ball, bounceY_speed]⟩

/-- Witness for C2 at the spec's miss scenario: window `800 × 600`, ball at
`(381, 210)`, right paddle at `0` — the left score gains a point, the ball and
rally counter reset, and the velocity is carried over (no bounce fired). -/
theorem score_event_effects_witness :
    (ballCollision 600 800 missState).leftScore.score = missState.leftScore.score + 1 ∧
    (ballCollision 600 800 missState).rightScore.score = missState.rightScore.score ∧
    (ballCollision 600 800 missState).trans.tx = 0 ∧
    (ballCollision 600 800 missState).trans.ty = 0 ∧
    (ballCollision 600 800 missState).counter.count = 0 ∧
    (ballCollision 600 800 missState).ball.x = missState.ball.x ∧
    (ballCollision 600 800 missState).ball.y =
      (if missState.trans.ty ≥ 600 / 2 - 20 ∨ missState.trans.ty ≤ -(600 / 2 - 20) then
          -missState.ball.y
        else missState.ball.y) ∧
    (ballCollision 600 800 missState).ball.speed_fact = missState.ball.speed_fact :=
  (score_event_effects 600 800 missState (by norm_num)).1
    (by norm_num [missState, initState])
    (by
      intro h
      exact absurd h.2 (by norm_num [missState, initState]))

/-- C2 counterexample: at the corner frame `(380, 280)` in a `800 × 600` window
the ball is at the right boundary with no catch, yet its `vy` is not carried
over unchanged — the same frame's vertical bounce negated it. -/
theorem score_event_velocity_changed :
    cornerState.trans.tx ≥ 800 / 2 - 20 ∧
    ¬(cornerState.trans.ty > cornerState.rightPos.y - 50 ∧
        cornerState.trans.ty < cornerState.rightPos.y + 50) ∧
    (ballCollision 600 800 cornerState).ball.y ≠ cornerState.ball.y := by
  have h1 : cornerState.trans.tx ≥ (800 : ℚ) / 2 - 20 := by
    norm_num [cornerState, initState]
  have h2 : ¬(cornerState.trans.ty > cornerState.rightPos.y - 50 ∧
      cornerState.trans.ty < cornerState.rightPos.y + 50) := by
    intro h
    exact absurd h.2 (by norm_num [cornerState, initState])
  refine ⟨h1, h2, ?_⟩
  rw [ballCollision_eq, if_pos h1, if_neg h2, scoreLeft_ball, bounceY_ball_y,
    if_pos (Or.inl (by norm_num [cornerState, initState] :
      cornerState.trans.ty ≥ (600 : ℚ) / 2 - 20))]
  norm_num [cornerState, initState]

/-- The offset produced by the auto-pilot body, as a three-way case split on
the strict comparisons against the predicted target. -/
lemma autoMovePaddleOne_eq (wh ww : ℚ) (ball : Ball) (trans : Transform)
    (paddle : Paddle) (pos : Position) :
    (autoMovePaddleOne wh ww ball trans paddle pos).y =
      if paddle.is_auto then
        if FVal.gtb (autoTarget ww ball trans paddle.paddle_type) pos.y then pos.y + wh / 100
        else if FVal.ltb (autoTarget ww ball trans paddle.paddle_type) pos.y then
          pos.y - wh / 100
        else pos.y
      else pos.y := by
  unfold autoMovePaddleOne
  dsimp only
  split_ifs <;> rfl

/-- C9: the auto-pilot changes an auto-piloted paddle's offset by at most one
fixed step `wh/100` per frame regardless of the prediction distance, moves it
by exactly one step in the direction given by the strict comparisons, and does
not move it at all when the target equals the current offset exactly. -/
theorem autopilot_step_bounded (wh ww : ℚ) (ball : Ball) (trans : Transform)
    (paddle : Paddle) (pos : Position) (hh : 0 ≤ wh) :
    |(autoMovePaddleOne wh ww ball trans paddle pos).y - pos.y| ≤ wh / 100 ∧
    (autoTarget ww ball trans paddle.paddle_type = FVal.fin pos.y →
      (autoMovePaddleOne wh ww ball trans paddle pos).y = pos.y) ∧
    (paddle.is_auto = true →
      FVal.gtb (autoTarget ww ball trans paddle.paddle_type) pos.y = true →
      (autoMovePaddleOne wh ww ball trans paddle pos).y = pos.y + wh / 100) ∧
    (paddle.is_auto = true →
      FVal.gtb (autoTarget ww ball trans paddle.paddle_type) pos.y = false →
      FVal.ltb (autoTarget ww ball trans paddle.paddle_type) pos.y = true →
      (autoMovePaddleOne wh ww ball trans paddle pos).y = pos.y - wh / 100) := by
  have hsp : (0 : ℚ) ≤ wh / 100 := div_nonneg hh (by norm_num)
  refine ⟨?_, ?_, ?_, ?_⟩
  · rw [autoMovePaddleOne_eq]
    split_ifs
    · rw [show pos.y + wh / 100 - pos.y = wh / 100 from by ring, abs_of_nonneg hsp]
    · rw [show pos.y - wh / 100 - pos.y = -(wh / 100) from by ring, abs_neg,
        abs_of_nonneg hsp]
    · rw [sub_self, abs_zero]; exact hsp
    · rw [sub_self, abs_zero]; exact hsp
  · intro he
    have hg : FVal.gtb (autoTarget ww ball trans paddle.paddle_type) pos.y = false := by
      rw [he]; simp [FVal.gtb]
    have hl : FVal.ltb (autoTarget ww ball trans paddle.paddle_type) pos.y = false := by
      rw [he]; simp [FVal.ltb]
    simp [autoMovePaddleOne_eq, hg, hl]
  · intro ha hgt
    simp [autoMovePaddleOne_eq, ha, hgt]
  · intro ha hgt hlt
    simp [autoMovePaddleOne_eq, ha, hgt, hlt]

/-- Witness for C9 at a concrete frame: window `800 × 600`, startup ball and
right paddle — the auto-pilot moves the paddle by at most `600/100`. -/
theorem autopilot_step_bounded_witness :
    |(autoMovePaddleOne 600 800 initState.ball initState.trans initState.rightPaddle
        initState.rightPos).y - initState.rightPos.y| ≤ 600 / 100 :=
  (autopilot_step_bounded 600 800 initState.ball initState.trans initState.rightPaddle
    initState.rightPos (by norm_num)).1

/-- With `vx = 0` the unguarded division makes the predicted target `+∞`, `-∞`
or NaN according to the sign of `vy * (X - bx)`. -/
lemma autoTarget_zero_vx (ww : ℚ) (ball : Ball) (trans : Transform) (pt : PaddleType)
    (hx : ball.x = 0) :
    autoTarget ww ball trans pt =
      if 0 < ball.y * (planeX pt ww - trans.tx) then FVal.inf
      else if ball.y * (planeX pt ww - trans.tx) < 0 then FVal.negInf
      else FVal.nan := by
  unfold autoTarget FVal.divq
  rw [hx, if_pos rfl]
  rcases lt_trichotomy (planeX pt ww - trans.tx) 0 with hn | hn | hn
  · rw [if_neg (by linarith : ¬planeX pt ww - trans.tx > 0), if_pos hn]
    rcases lt_trichotomy ball.y 0 with hy | hy | hy
    · rw [show FVal.mulq ball.y FVal.negInf =
          (if ball.y > 0 then FVal.negInf else if ball.y < 0 then FVal.inf
            else FVal.nan) from rfl,
        if_neg (by linarith : ¬ball.y > 0), if_pos hy,
        show FVal.addq trans.ty FVal.inf = FVal.inf from rfl,
        if_pos (mul_pos_of_neg_of_neg hy hn)]
    · rw [show FVal.mulq ball.y FVal.negInf =
          (if ball.y > 0 then FVal.negInf else if ball.y < 0 then FVal.inf
            else FVal.nan) from rfl,
        if_neg (by simp [hy] : ¬ball.y > 0), if_neg (by simp [hy] : ¬ball.y < 0),
        show FVal.addq trans.ty FVal.nan = FVal.nan from rfl, hy, zero_mul,
        if_neg (lt_irrefl 0), if_neg (lt_irrefl 0)]
    · rw [show FVal.mulq ball.y FVal.negInf =
          (if ball.y > 0 then FVal.negInf else if ball.y < 0 then FVal.inf
            else FVal.nan) from rfl,
        if_pos hy,
        show FVal.addq trans.ty FVal.negInf = FVal.negInf from rfl,
        if_neg (by nlinarith : ¬0 < ball.y * (planeX pt ww - trans.tx)),
        if_pos (mul_neg_of_pos_of_neg hy hn)]
  · rw [if_neg (by simp [hn] : ¬planeX pt ww - trans.tx > 0),
      if_neg (by simp [hn] : ¬planeX pt ww - trans.tx < 0),
      show FVal.mulq ball.y FVal.nan = FVal.nan from rfl,
      show FVal.addq trans.ty FVal.nan = FVal.nan from rfl, hn, mul_zero,
      if_neg (lt_irrefl 0), if_neg (lt_irrefl 0)]
  · rw [if_pos hn]
    rcases lt_trichotomy ball.y 0 with hy | hy | hy
    · rw [show FVal.mulq ball.y FVal.inf =
          (if ball.y > 0 then FVal.inf else if ball.y < 0 then FVal.negInf
            else FVal.nan) from rfl,
        if_neg (by linarith : ¬ball.y > 0), if_pos hy,
        show FVal.addq trans.ty FVal.negInf = FVal.negInf from rfl,
        if_neg (by nlinarith : ¬0 < ball.y * (planeX pt ww - trans.tx)),
        if_pos (mul_neg_of_neg_of_pos hy hn)]
    · rw [show FVal.mulq ball.y FVal.inf =
          (if ball.y > 0 then FVal.inf else if ball.y < 0 then FVal.negInf
            else FVal.nan) from rfl,
        if_neg (by simp [hy] : ¬ball.y > 0), if_neg (by simp [hy] : ¬ball.y < 0),
        show FVal.addq trans.ty FVal.nan = FVal.nan from rfl, hy, zero_mul,
        if_neg (lt_irrefl 0), if_neg (lt_irrefl 0)]
    · rw [show FVal.mulq ball.y FVal.inf =
          (if ball.y > 0 then FVal.inf else if ball.y < 0 then FVal.negInf
            else FVal.nan) from rfl,
        if_pos hy,
        show FVal.addq trans.ty FVal.inf = FVal.inf from rfl,
        if_pos (mul_pos hy hn)]

/-- C4 amended: with `vx = 0` the auto-pilot does *not* skip movement — the
source performs the division anyway, so under IEEE semantics the target is
`±∞` (or NaN) and an auto-piloted paddle moves one step up when
`vy * (X - bx) > 0`, one step down when `vy * (X - bx) < 0`, and stays put only
in the NaN cases (`vy = 0` or the ball exactly on the paddle's plane). -/
theorem autopilot_zero_vx_direction (wh ww : ℚ) (ball : Ball) (trans : Transform)
    (paddle : Paddle) (pos : Position) (hx : ball.x = 0)
    (ha : paddle.is_auto = true) :
    (autoMovePaddleOne wh ww ball trans paddle pos).y =
      if 0 < ball.y * (planeX paddle.paddle_type ww - trans.tx) then pos.y + wh / 100
      else if ball.y * (planeX paddle.paddle_type ww - trans.tx) < 0 then pos.y - wh / 100
      else pos.y := by
  rw [autoMovePaddleOne_eq, if_pos ha,
    autoTarget_zero_vx ww ball trans paddle.paddle_type hx]
  by_cases h1 : 0 < ball.y * (planeX paddle.paddle_type ww - trans.tx)
  · simp [h1, FVal.gtb]
  · by_cases h2 : ball.y * (planeX paddle.paddle_type ww - trans.tx) < 0
    · simp [h1, h2, FVal.gtb, FVal.ltb]
    · simp [h1, h2, FVal.gtb, FVal.ltb]

/-- C4 counterexample: a ball with `vx = 0` and `vy = 3` at the origin in a
`800 × 600` window makes the auto-piloted right paddle move (to offset `6`),
instead of the claimed skipped movement. -/
theorem autopilot_zero_vx_moves :
    Ball.x { x := 0, y := 3, speed_fact := 1 } = 0 ∧
    (autoMovePaddleOne 600 800 { x := 0, y := 3, speed_fact := 1 } { tx := 0, ty := 0 }
        { paddle_type := PaddleType.Right, is_auto := true } { y := 0 }).y ≠ 0 := by
  refine ⟨rfl, ?_⟩
  norm_num [autoMovePaddleOne, autoTarget, FVal.divq, FVal.mulq, FVal.addq, FVal.gtb,
    FVal.ltb, planeX]

/-- Witness for the amended C4 at the counterexample's input: the paddle moves
one step up, to offset `6`. -/
theorem autopilot_zero_vx_direction_witness :
    (autoMovePaddleOne 600 800 { x := 0, y := 3, speed_fact := 1 } { tx := 0, ty := 0 }
        { paddle_type := PaddleType.Right, is_auto := true } { y := 0 }).y = 6 := by
  have h := autopilot_zero_vx_direction 600 800 { x := 0, y := 3, speed_fact := 1 }
    { tx := 0, ty := 0 } { paddle_type := PaddleType.Right, is_auto := true } { y := 0 }
    rfl rfl
  rw [h]
  norm_num [planeX]

lemma ballSpeedUp_speed (s : GameState) :
    (ballSpeedUp s).ball.speed_fact =
      1 + ((min (s.leftScore.score + s.rightScore.score) 20 : ℤ) : ℚ) / 5
        + (s.counter.count : ℚ) / 3 := rfl

lemma ballSpeedUp_speed_ge_one (s : GameState) (h1 : 0 ≤ s.leftScore.score)
    (h2 : 0 ≤ s.rightScore.score) (h3 : 0 ≤ s.counter.count) :
    1 ≤ (ballSpeedUp s).ball.speed_fact := by
  rw [ballSpeedUp_speed]
  have ha : (0 : ℚ) ≤ ((min (s.leftScore.score + s.rightScore.score) 20 : ℤ) : ℚ) := by
    have hz : (0 : ℤ) ≤ min (s.leftScore.score + s.rightScore.score) 20 :=
      le_min (by omega) (by omega)
    exact_mod_cast hz
  have hb : (0 : ℚ) ≤ (s.counter.count : ℚ) := by exact_mod_cast h3
  have hc := div_nonneg ha (by norm_num : (0 : ℚ) ≤ 5)
  have hd := div_nonneg hb (by norm_num : (0 : ℚ) ≤ 3)
  linarith

/-- Both scores, the rally counter and the speed factor invariants, proved
together by induction over reachability: scores and counter never go negative
(scores only gain, the counter only gains or resets) and the recomputed speed
factor never falls below `1`. -/
lemma reachable_nonneg {s : GameState} (h : Reachable s) :
    0 ≤ s.leftScore.score ∧ 0 ≤ s.rightScore.score ∧ 0 ≤ s.counter.count ∧
      1 ≤ s.ball.speed_fact := by
  induction h with
  | init => exact ⟨le_refl 0, le_refl 0, le_refl 0, le_refl 1⟩
  | step hr hstep ih =>
      obtain ⟨h1, h2, h3, h4⟩ := ih
      cases hstep with
      | move s => exact ⟨h1, h2, h3, h4⟩
      | collide wh ww s =>
          rw [ballCollision_eq]
          split_ifs
          · exact ⟨by rw [catchBall_leftScore, bounceY_leftScore]; exact h1,
              by rw [catchBall_rightScore, bounceY_rightScore]; exact h2,
              by rw [catchBall_count, bounceY_counter]; omega,
              by rw [catchBall_speed, bounceY_speed]; exact h4⟩
          · exact ⟨by rw [scoreLeft_leftScore, bounceY_leftScore]; omega,
              by rw [scoreLeft_rightScore, bounceY_rightScore]; exact h2,
              by rw [scoreLeft_count],
              by rw [scoreLeft_ball, bounceY_speed]; exact h4⟩
          · exact ⟨by rw [catchBall_leftScore, bounceY_leftScore]; exact h1,
              by rw [catchBall_rightScore, bounceY_rightScore]; exact h2,
              by rw [catchBall_count, bounceY_counter]; omega,
              by rw [catchBall_speed, bounceY_speed]; exact h4⟩
          · exact ⟨by rw [scoreRight_leftScore, bounceY_leftScore]; exact h1,
              by rw [scoreRight_rightScore, bounceY_rightScore]; omega,
              by rw [scoreRight_count],
              by rw [scoreRight_ball, bounceY_speed]; exact h4⟩
          · exact ⟨by rw [bounceY_leftScore]; exact h1,
              by rw [bounceY_rightScore]; exact h2,
              by rw [bounceY_counter]; exact h3,
              by rw [bounceY_speed]; exact h4⟩
      | speedUp s =>
          exact ⟨h1, h2, h3, ballSpeedUp_speed_ge_one _ h1 h2 h3⟩
      | paddles wh k s => exact ⟨h1, h2, h3, h4⟩
      | autoPaddles wh ww s => exact ⟨h1, h2, h3, h4⟩

/-- C8: in every reachable state the ball's speed factor is at least `1.0`. -/
theorem speed_factor_ge_one (s : GameState) (h : Reachable s) :
    1 ≤ s.ball.speed_fact :=
  (reachable_nonneg h).2.2.2

/-- Witness for C8 at the startup state, which is reachable. -/
theorem speed_factor_ge_one_witness : 1 ≤ initState.ball.speed_fact :=
  speed_factor_ge_one initState Reachable.init

lemma bounceY_abs_y (h : ℚ) (s : GameState) :
    |(bounceY h s).ball.y| = |s.ball.y| := by
  rw [bounceY_ball_y]; split_ifs <;> simp [abs_neg]

/-- C10: in every reachable state the magnitudes of the ball's velocity
direction components are exactly those it spawned with — `|vx| = |vy| = 3.0`;
every system either leaves them untouched or negates exactly one of them. -/
theorem velocity_magnitude_invariant (s : GameState) (h : Reachable s) :
    |s.ball.x| = 3 ∧ |s.ball.y| = 3 := by
  induction h with
  | init => constructor <;> norm_num [initState]
  | step hr hstep ih =>
      obtain ⟨h1, h2⟩ := ih
      cases hstep with
      | move s => exact ⟨h1, h2⟩
      | collide wh ww s =>
          rw [ballCollision_eq]
          split_ifs
          · exact ⟨by rw [catchBall_ball_x, abs_neg, bounceY_ball_x]; exact h1,
              by rw [catchBall_ball_y, bounceY_abs_y]; exact h2⟩
          · exact ⟨by rw [scoreLeft_ball, bounceY_ball_x]; exact h1,
              by rw [scoreLeft_ball, bounceY_abs_y]; exact h2⟩
          · exact ⟨by rw [catchBall_ball_x, abs_neg, bounceY_ball_x]; exact h1,
              by rw [catchBall_ball_y, bounceY_abs_y]; exact h2⟩
          · exact ⟨by rw [scoreRight_ball, bounceY_ball_x]; exact h1,
              by rw [scoreRight_ball, bounceY_abs_y]; exact h2⟩
          · exact ⟨by rw [bounceY_ball_x]; exact h1, by rw [bounceY_abs_y]; exact h2⟩
      | speedUp s => exact ⟨h1, h2⟩
      | paddles wh k s => exact ⟨h1, h2⟩
      | autoPaddles wh ww s => exact ⟨h1, h2⟩

/-- Witness for C10 at the startup state, which is reachable. -/
theorem velocity_magnitude_invariant_witness :
    |initState.ball.x| = 3 ∧ |initState.ball.y| = 3 :=
  velocity_magnitude_invariant initState Reachable.init

end Pong
